import Mathlib

/-!
Verification development for a small Python repository containing two
command-line utilities:

* fasting.py: time parsing (parse_time), time formatting (format_time) and
  the fasting-window computation (calculate_fasting_start);
* datecalc.py: a calendar-year offset calculator (calculate_new_date).

Each Python function is embedded as an executable Lean definition over
Nat / Int / Rat and Lean strings. Python raises ValueError for both malformed
shapes and out-of-range values; following the specification these are split
into a FormatError and a RangeError constructor of an explicit error type,
and fallible functions return Except.
-/

/-- Error kinds raised by the utilities: FormatError for a malformed string
shape, RangeError for a value outside its valid domain. -/
inductive TimeError where
  | format
  | range
deriving DecidableEq

/-- Decidable equality on Except, used to evaluate the fallible functions on
concrete inputs. -/
instance {e a : Type} [DecidableEq e] [DecidableEq a] : DecidableEq (Except e a)
  | .ok x, .ok y => decidable_of_iff (x = y) (by simp)
  | .error x, .error y => decidable_of_iff (x = y) (by simp)
  | .ok _, .error _ => isFalse (by simp)
  | .error _, .ok _ => isFalse (by simp)

/-- Character of a single decimal digit, as produced by Python string
formatting: digitChar n is the character for n when n is below 10. -/
def digitChar (n : Nat) : Char := Char.ofNat (48 + n)

/-- Numeric value of a decimal digit character, as produced by Python int()
on a single digit. -/
def digitVal (c : Char) : Nat := c.toNat - 48

/-- Embedding of the regex check together with the int conversions of
parse_time: re.match of the anchored pattern of one or two digits, a colon,
and exactly two digits; on success the pair (hours, minutes) obtained by
mapping int over the split at the colon. Returns none exactly when the
regex does not match. -/
def parseHHMM : List Char → Option (Nat × Nat)
  | [h1, c, m1, m2] =>
    if h1.isDigit ∧ c = ':' ∧ m1.isDigit ∧ m2.isDigit then
      some (digitVal h1, 10 * digitVal m1 + digitVal m2)
    else none
  | [h1, h2, c, m1, m2] =>
    if h1.isDigit ∧ h2.isDigit ∧ c = ':' ∧ m1.isDigit ∧ m2.isDigit then
      some (10 * digitVal h1 + digitVal h2, 10 * digitVal m1 + digitVal m2)
    else none
  | _ => none

/-- Embedding of Python str.upper restricted to the ASCII range used by the
period tokens. -/
def strUpper (s : String) : String := ⟨s.data.map Char.toUpper⟩

/-- Validation and conversion logic of parse_time after the regex step: the
argument is the regex result (none for a mismatch). A period argument of
none models Python None; a period of some "" is falsy in Python and is
treated exactly like None, as in the source (the test "if period:"). Hours
and minutes come from digits, so they are nonnegative by construction and
only the upper bound checks of the source remain. -/
def parseTimeCore : Option (Nat × Nat) → Option String → Except TimeError Nat
  | none, _ => .error .format
  | some (hours, minutes), period =>
    if 60 ≤ minutes then .error .range
    else
      match period with
      | some p =>
        if p.isEmpty then
          if 23 < hours then .error .range else .ok (hours * 60 + minutes)
        else
          let pu := strUpper p
          if pu ≠ "AM" ∧ pu ≠ "PM" then .error .range
          else if 12 < hours ∨ hours < 1 then .error .range
          else
            let hours :=
              if pu = "PM" ∧ hours ≠ 12 then hours + 12
              else if pu = "AM" ∧ hours = 12 then 0
              else hours
            .ok (hours * 60 + minutes)
      | none =>
        if 23 < hours then .error .range else .ok (hours * 60 + minutes)

/-- Embedding of parse_time from fasting.py: the regex match followed by the
validation and conversion logic. -/
def parse_time (time_str : String) (period : Option String := none) :
    Except TimeError Nat :=
  parseTimeCore (parseHHMM time_str.data) period

/-- Two-digit zero padding, as the Python format specifier 02 on the values
below 100 that format_time produces. -/
def pad2 (n : Nat) : String := ⟨[digitChar (n / 10), digitChar (n % 10)]⟩

/-- Embedding of format_time from fasting.py. The argument is an arbitrary
integer minute count; the Python modulo on int agrees with the Lean emod
for the positive modulus 1440. -/
def format_time (total_minutes : Int) (use_12_hour : Bool := false) : String :=
  let normalized := (total_minutes % 1440).toNat
  let hours := normalized / 60
  let minutes := normalized % 60
  if use_12_hour then
    let period := if hours < 12 then "AM" else "PM"
    let display_hour := hours % 12
    let display_hour := if display_hour = 0 then 12 else display_hour
    pad2 display_hour ++ ":" ++ pad2 minutes ++ " " ++ period
  else
    pad2 hours ++ ":" ++ pad2 minutes

/-- Embedding of Python int() applied to a rational value: truncation toward
zero. The fasting duration reaches the code as a float; it is modelled as a
rational number, with int(x) as integer truncation. -/
def truncRat (q : ℚ) : Int := q.num.tdiv q.den

/-- The absolute minute of the meal measured from the midnight that starts
the current day, as computed by the first conditional of
calculate_fasting_start: if the meal minute does not exceed the current
minute the meal is taken to be on the next day. -/
def mealAbsolute (current_minutes meal_minutes : Int) : Int :=
  if meal_minutes ≤ current_minutes then meal_minutes + 1440 else meal_minutes

/-- The fasting-start-absolute value computed by calculate_fasting_start:
the meal absolute minute less the duration, pushed forward by one further
day when the candidate start would not lie strictly after the current
minute. -/
def fastingStartAbs (current_minutes meal_minutes d : Int) : Int :=
  let meal_absolute := mealAbsolute current_minutes meal_minutes
  let fasting_start := meal_absolute - d
  if fasting_start ≤ current_minutes then meal_absolute + 1440 - d
  else fasting_start

/-- Number of times the second conditional of calculate_fasting_start (the
one-day push of step 4) fires: the code contains a single if, not a loop,
so this is 1 when the condition holds and 0 otherwise. -/
def pushCount (current_minutes meal_minutes d : Int) : Nat :=
  if mealAbsolute current_minutes meal_minutes - d ≤ current_minutes then 1
  else 0

/-- The day label of calculate_fasting_start: floor division of the
fasting-start-absolute by 1440, with 0 rendered today, 1 rendered tomorrow,
and anything else rendered as a day count. -/
def dayLabel (fasting_start : Int) : String :=
  let day_num := fasting_start / 1440
  if day_num = 0 then "today"
  else if day_num = 1 then "tomorrow"
  else "in " ++ toString day_num ++ " days"

/-- Embedding of calculate_fasting_start from fasting.py: parse both times,
truncate the duration in hours to whole minutes, compute the
fasting-start-absolute and return the formatted start together with the day
label. Parse errors propagate unchanged through the Except bind. -/
def calculate_fasting_start (current_time_str meal_time_str : String)
    (fasting_duration_hours : ℚ)
    (current_period : Option String := none)
    (meal_period : Option String := none)
    (use_12_hour_output : Bool := false) :
    Except TimeError (String × String) := do
  let current_minutes ← parse_time current_time_str current_period
  let meal_minutes ← parse_time meal_time_str meal_period
  let fasting_duration_minutes := truncRat (fasting_duration_hours * 60)
  let fasting_start :=
    fastingStartAbs current_minutes meal_minutes fasting_duration_minutes
  return (format_time fasting_start use_12_hour_output, dayLabel fasting_start)

/-- Gregorian leap year test, as in the calendar arithmetic underlying the
date libraries used by datecalc.py. -/
def isLeapYear (y : Nat) : Bool :=
  (y % 4 == 0 && y % 100 != 0) || (y % 400 == 0)

/-- Number of days of a month of a given year. -/
def daysInMonth (y month : Nat) : Nat :=
  if month = 2 then (if isLeapYear y then 29 else 28)
  else if month = 4 ∨ month = 6 ∨ month = 9 ∨ month = 11 then 30
  else 31

/-- Range validation of a parsed date, as performed by strptime and the
datetime constructor: the year between 1 and 9999, the month between 1 and
12, the day between 1 and the length of the month. -/
def mkDate (y month d : Nat) : Option (Nat × Nat × Nat) :=
  if 1 ≤ y ∧ y ≤ 9999 ∧ 1 ≤ month ∧ month ≤ 12 ∧ 1 ≤ d ∧
      d ≤ daysInMonth y month then
    some (y, month, d)
  else none

/-- Embedding of datetime.strptime with the year-month-day format of
datecalc.py: a four-digit year, a dash, a one-or-two-digit month, a dash and
a one-or-two-digit day, followed by the range validation. Returns none
exactly when Python strptime raises. -/
def parseDate (s : String) : Option (Nat × Nat × Nat) :=
  match s.data with
  | [y1, y2, y3, y4, '-', a1, a2, '-', b1, b2] =>
    if y1.isDigit ∧ y2.isDigit ∧ y3.isDigit ∧ y4.isDigit ∧
        a1.isDigit ∧ a2.isDigit ∧ b1.isDigit ∧ b2.isDigit then
      mkDate (1000 * digitVal y1 + 100 * digitVal y2 + 10 * digitVal y3 +
          digitVal y4)
        (10 * digitVal a1 + digitVal a2) (10 * digitVal b1 + digitVal b2)
    else none
  | [y1, y2, y3, y4, '-', a1, a2, '-', b1] =>
    if y1.isDigit ∧ y2.isDigit ∧ y3.isDigit ∧ y4.isDigit ∧
        a1.isDigit ∧ a2.isDigit ∧ b1.isDigit then
      mkDate (1000 * digitVal y1 + 100 * digitVal y2 + 10 * digitVal y3 +
          digitVal y4)
        (10 * digitVal a1 + digitVal a2) (digitVal b1)
    else none
  | [y1, y2, y3, y4, '-', a1, '-', b1, b2] =>
    if y1.isDigit ∧ y2.isDigit ∧ y3.isDigit ∧ y4.isDigit ∧
        a1.isDigit ∧ b1.isDigit ∧ b2.isDigit then
      mkDate (1000 * digitVal y1 + 100 * digitVal y2 + 10 * digitVal y3 +
          digitVal y4)
        (digitVal a1) (10 * digitVal b1 + digitVal b2)
    else none
  | [y1, y2, y3, y4, '-', a1, '-', b1] =>
    if y1.isDigit ∧ y2.isDigit ∧ y3.isDigit ∧ y4.isDigit ∧
        a1.isDigit ∧ b1.isDigit then
      mkDate (1000 * digitVal y1 + 100 * digitVal y2 + 10 * digitVal y3 +
          digitVal y4)
        (digitVal a1) (digitVal b1)
    else none
  | _ => none

/-- Decimal digits of a year as printed by the strftime year directive on
Linux glibc, which does not zero-pad: years below 1000 are rendered with
fewer than four digits. The case split covers the full datetime year range
up to 9999. -/
def yearChars (y : Nat) : List Char :=
  if y < 10 then [digitChar y]
  else if y < 100 then [digitChar (y / 10), digitChar (y % 10)]
  else if y < 1000 then
    [digitChar (y / 100), digitChar (y / 10 % 10), digitChar (y % 10)]
  else
    [digitChar (y / 1000), digitChar (y / 100 % 10), digitChar (y / 10 % 10),
     digitChar (y % 10)]

/-- Embedding of strftime with the year-month-day format of datecalc.py:
the year unpadded per the glibc convention, month and day zero-padded to
two digits. -/
def formatDate (y month d : Nat) : String :=
  (⟨yearChars y⟩ : String) ++ "-" ++ pad2 month ++ "-" ++ pad2 d

/-- Error kinds of the date calculator. -/
inductive DateError where
  | format
  | range
deriving DecidableEq

/-- Embedding of calculate_new_date from datecalc.py on an explicit start
date string (the branch taking the current date when no string is given is
outside the embedding, as it reads the wall clock). The relativedelta year
addition keeps month and day and clamps the day to the length of the target
month, which is the documented convention of the library; a target year
outside the datetime range raises, modelled as a RangeError. -/
def calculate_new_date (years : Int) (start_date : String) :
    Except DateError String :=
  match parseDate start_date with
  | none => .error .format
  | some (y, month, d) =>
    let ny : Int := (y : Int) + years
    if 1 ≤ ny ∧ ny ≤ 9999 then
      let ny := ny.toNat
      .ok (formatDate ny month (min d (daysInMonth ny month)))
    else .error .range

/-- Written from the words of the specification, for comparison with the
code: the smallest absolute minute that is congruent to the parsed meal
time modulo 1440 and strictly greater than the parsed current time, both
taken in the range of a single day. -/
def specNextOccurrence (current_minutes meal_minutes : Int) : Int :=
  if meal_minutes ≤ current_minutes then meal_minutes + 1440 else meal_minutes

theorem data_append (a b : String) : (a ++ b).data = a.data ++ b.data := rfl

theorem digit_facts : ∀ k, k < 10 → (digitChar k).isDigit = true ∧
    digitVal (digitChar k) = k ∧ digitChar k ≠ ':' ∧ digitChar k ≠ '-' := by decide

theorem pad2_colon_data (a b : Nat) : (pad2 a ++ ":" ++ pad2 b).data =
    [digitChar (a / 10), digitChar (a % 10), ':', digitChar (b / 10), digitChar (b % 10)] := rfl

theorem parseHHMM_pad2 (a b : Nat) (ha : a < 100) (hb : b < 100) :
    parseHHMM ((pad2 a ++ ":" ++ pad2 b).data) = some (a, b) := by
  have l1 := digit_facts (a / 10) (by omega)
  have l2 := digit_facts (a % 10) (by omega)
  have l3 := digit_facts (b / 10) (by omega)
  have l4 := digit_facts (b % 10) (by omega)
  rw [pad2_colon_data]
  simp only [parseHHMM, l1.1, l2.1, l3.1, l4.1, and_true, true_and, and_self, if_pos,
    l1.2.1, l2.2.1, l3.2.1, l4.2.1, Option.some.injEq, Prod.mk.injEq]
  omega

theorem parseTimeCore_ok_le (o : Option (Nat × Nat)) (p : Option String) (v : Nat)
    (h : parseTimeCore o p = .ok v) : v ≤ 1439 := by
  rcases o with _ | ⟨hh, mm⟩
  · simp [parseTimeCore] at h
  · rcases p with _ | t <;> simp only [parseTimeCore] at h <;>
      split_ifs at h <;> simp only [Except.ok.injEq] at h <;> omega

theorem parse_time_ok_le (s : String) (p : Option String) (v : Nat)
    (h : parse_time s p = .ok v) : v ≤ 1439 :=
  parseTimeCore_ok_le _ _ _ h

theorem format_time_24_eq (m : Int) : format_time m false =
    pad2 ((m % 1440).toNat / 60) ++ ":" ++ pad2 ((m % 1440).toNat % 60) := rfl

theorem format_time_12_eq (m : Int) : format_time m true =
    pad2 (if (m % 1440).toNat / 60 % 12 = 0 then 12 else (m % 1440).toNat / 60 % 12) ++ ":" ++
      pad2 ((m % 1440).toNat % 60) ++ " " ++
      (if (m % 1440).toNat / 60 < 12 then "AM" else "PM") := rfl

theorem parse_format24 (n : Nat) (hn : n < 1440) :
    parse_time (format_time (n : Int) false) none = .ok n := by
  have hmod : (((n : Int)) % 1440).toNat = n := by omega
  rw [parse_time, format_time_24_eq, hmod, parseHHMM_pad2 _ _ (by omega) (by omega)]
  simp only [parseTimeCore]
  rw [if_neg (by omega), if_neg (by omega)]
  congr 1
  omega

theorem format_time_wrap (m : Int) (u : Bool) : format_time m u = format_time (m % 1440) u := by
  simp only [format_time, Int.emod_emod_of_dvd _ dvd_rfl]

theorem parse_format24_int (m : Int) :
    parse_time (format_time m false) none = .ok (m % 1440).toNat := by
  have h1 : format_time m false = format_time (((m % 1440).toNat : Nat) : Int) false := by
    rw [format_time_wrap]
    congr 1
    omega
  rw [h1, parse_format24 _ (by omega)]

theorem parse_format12 (n : Nat) (hn : n < 1440) :
    ∃ hh pp, format_time (n : Int) true = hh ++ " " ++ pp ∧ (pp = "AM" ∨ pp = "PM") ∧
      parse_time hh (some pp) = .ok n := by
  obtain ⟨h24, mm, hh24, hmm, rfl⟩ :
      ∃ h24 mm, h24 < 24 ∧ mm < 60 ∧ n = 60 * h24 + mm :=
    ⟨n / 60, n % 60, by omega, by omega, by omega⟩
  have hmod : (((60 * h24 + mm : Nat) : Int) % 1440).toNat = 60 * h24 + mm := by omega
  have e1 : (60 * h24 + mm) / 60 = h24 := by omega
  have e2 : (60 * h24 + mm) % 60 = mm := by omega
  refine ⟨pad2 (if h24 % 12 = 0 then 12 else h24 % 12) ++ ":" ++ pad2 mm,
    if h24 < 12 then "AM" else "PM", ?_, ?_, ?_⟩
  · rw [format_time_12_eq, hmod, e1, e2]
  · split <;> simp
  · have hdh : (if h24 % 12 = 0 then 12 else h24 % 12) < 100 := by split <;> omega
    rw [parse_time, parseHHMM_pad2 _ _ hdh (by omega)]
    simp only [parseTimeCore]
    rw [if_neg (by omega)]
    by_cases hlt : h24 < 12
    · simp only [if_pos hlt]
      rw [if_neg (by decide)]
      rw [show strUpper "AM" = "AM" from by decide]
      rw [if_neg (by decide)]
      rw [if_neg (by split <;> omega)]
      by_cases h0 : h24 = 0
      · subst h0
        norm_num
      · have h120 : ¬ (h24 % 12 = 0) := by omega
        have hid : h24 % 12 = h24 := Nat.mod_eq_of_lt hlt
        rw [if_neg h120, hid]
        rw [if_neg (by rintro ⟨hcon, -⟩; exact absurd hcon (by decide))]
        rw [if_neg (by rintro ⟨-, hcon⟩; omega)]
        congr 1
        omega
    · simp only [if_neg hlt]
      rw [if_neg (by decide)]
      rw [show strUpper "PM" = "PM" from by decide]
      rw [if_neg (by decide)]
      rw [if_neg (by split <;> omega)]
      by_cases h12 : h24 = 12
      · subst h12
        norm_num
        decide
      · have h120 : ¬ (h24 % 12 = 0) := by omega
        rw [if_neg h120]
        rw [if_pos ⟨rfl, by omega⟩]
        congr 1
        omega

theorem truncRat_nonneg (q : ℚ) (h : 0 ≤ q) : 0 ≤ truncRat q :=
  Int.tdiv_nonneg (Rat.num_nonneg.mpr h) (by positivity)

theorem truncRat_eq_floor (q : ℚ) (h : 0 ≤ q) : truncRat q = ⌊q⌋ := by
  rw [truncRat, Rat.floor_def]
  exact Int.tdiv_eq_ediv (Rat.num_nonneg.mpr h) (by positivity)

theorem truncRat_le (q : ℚ) (b : Int) (h0 : 0 ≤ q) (h : q ≤ (b : ℚ)) : truncRat q ≤ b := by
  rw [truncRat_eq_floor q h0]
  calc ⌊q⌋ ≤ ⌊(b : ℚ)⌋ := Int.floor_le_floor h
  _ = b := Int.floor_intCast b

theorem trunc16 : truncRat ((16:ℚ) * 60) = 960 := by
  have h : ((16:ℚ) * 60) = 960 := by norm_num
  rw [h]; simp [truncRat]

theorem trunc2 : truncRat ((2:ℚ) * 60) = 120 := by
  have h : ((2:ℚ) * 60) = 120 := by norm_num
  rw [h]; simp [truncRat]

theorem trunc49 : truncRat ((49:ℚ) * 60) = 2940 := by
  have h : ((49:ℚ) * 60) = 2940 := by norm_num
  rw [h]; simp [truncRat]

/-- Claim C1, amended: for every valid current time string, meal time string
and positive fasting duration in hours, the minute specNextOccurrence c m is
the smallest absolute minute congruent to the parsed meal time modulo 1440
and strictly greater than the parsed current time, and the fasting start
plus the whole-minute duration equals that minute whenever the minute minus
the duration lies strictly after the current time; otherwise it equals that
minute plus a further 1440. -/
theorem C1_next_meal (cs ms : String) (cp mp : Option String) (q : ℚ) (c m : Nat)
    (hc : parse_time cs cp = .ok c) (hm : parse_time ms mp = .ok m) (hq : 0 < q) :
    ((c : Int) < specNextOccurrence c m ∧
      specNextOccurrence c m % 1440 = (m : Int) % 1440 ∧
      (∀ k : Int, k % 1440 = (m : Int) % 1440 → (c : Int) < k → specNextOccurrence c m ≤ k)) ∧
    ((c : Int) < specNextOccurrence c m - truncRat (q * 60) →
      fastingStartAbs c m (truncRat (q * 60)) + truncRat (q * 60) = specNextOccurrence c m) ∧
    (specNextOccurrence c m - truncRat (q * 60) ≤ (c : Int) →
      fastingStartAbs c m (truncRat (q * 60)) + truncRat (q * 60) =
        specNextOccurrence c m + 1440) := by
  have hc' := parse_time_ok_le _ _ _ hc
  have hm' := parse_time_ok_le _ _ _ hm
  have hd : 0 ≤ truncRat (q * 60) := truncRat_nonneg _ (by positivity)
  refine ⟨⟨?_, ?_, ?_⟩, ?_, ?_⟩
  · simp only [specNextOccurrence]; split_ifs <;> omega
  · simp only [specNextOccurrence]; split_ifs <;> omega
  · intro k hk1 hk2
    simp only [specNextOccurrence]; split_ifs <;> omega
  · intro hcase
    simp only [specNextOccurrence, fastingStartAbs, mealAbsolute] at *
    split_ifs at * <;> omega
  · intro hcase
    simp only [specNextOccurrence, fastingStartAbs, mealAbsolute] at *
    split_ifs at * <;> omega

/-- Claim C2, amended: for every valid current time string, meal time string
and positive fasting duration of at most 24 hours, the fasting start is
strictly greater than the current time in minutes since midnight, and the
step-4 one-day push is applied at most once. -/
theorem C2_future (cs ms : String) (cp mp : Option String) (q : ℚ) (c m : Nat)
    (hc : parse_time cs cp = .ok c) (hm : parse_time ms mp = .ok m)
    (hq : 0 < q) (hq24 : q ≤ 24) :
    (c : Int) < fastingStartAbs c m (truncRat (q * 60)) ∧
    pushCount c m (truncRat (q * 60)) ≤ 1 := by
  have hc' := parse_time_ok_le _ _ _ hc
  have hm' := parse_time_ok_le _ _ _ hm
  have hd0 : 0 ≤ truncRat (q * 60) := truncRat_nonneg _ (by positivity)
  have hd1 : truncRat (q * 60) ≤ 1440 := by
    apply truncRat_le _ _ (by positivity)
    push_cast
    linarith
  constructor
  · simp only [fastingStartAbs, mealAbsolute]
    split_ifs <;> omega
  · simp only [pushCount, mealAbsolute]
    split_ifs <;> omega

/-- Claim C8: for every valid current time, meal time and positive fasting
duration, the fasting start plus the whole-minute duration is congruent to
the parsed meal time modulo 1440, so the fast always ends at the meal time
of day. -/
theorem C8_congruent (cs ms : String) (cp mp : Option String) (q : ℚ) (c m : Nat)
    (hc : parse_time cs cp = .ok c) (hm : parse_time ms mp = .ok m) (hq : 0 < q) :
    (fastingStartAbs c m (truncRat (q * 60)) + truncRat (q * 60)) % 1440 =
      (m : Int) % 1440 := by
  simp only [fastingStartAbs, mealAbsolute]
  split_ifs <;> omega

/-- Claim C9: for every valid current time, meal time and positive fasting
duration, the day number of the fasting start is at most 1, and a day label
other than today and tomorrow forces a negative day number. -/
theorem C9_day (cs ms : String) (cp mp : Option String) (q : ℚ) (c m : Nat)
    (hc : parse_time cs cp = .ok c) (hm : parse_time ms mp = .ok m) (hq : 0 < q) :
    fastingStartAbs c m (truncRat (q * 60)) / 1440 ≤ 1 ∧
    (dayLabel (fastingStartAbs c m (truncRat (q * 60))) ≠ "today" →
      dayLabel (fastingStartAbs c m (truncRat (q * 60))) ≠ "tomorrow" →
      fastingStartAbs c m (truncRat (q * 60)) / 1440 < 0) := by
  have hc' := parse_time_ok_le _ _ _ hc
  have hm' := parse_time_ok_le _ _ _ hm
  have hd : 0 ≤ truncRat (q * 60) := truncRat_nonneg _ (by positivity)
  have hfs : fastingStartAbs c m (truncRat (q * 60)) ≤ 2879 := by
    simp only [fastingStartAbs, mealAbsolute]
    split_ifs <;> omega
  refine ⟨by omega, ?_⟩
  intro h1 h2
  have hne0 : ¬ (fastingStartAbs c m (truncRat (q * 60)) / 1440 = 0) := by
    intro h0
    exact h1 (by simp [dayLabel, h0])
  have hne1 : ¬ (fastingStartAbs c m (truncRat (q * 60)) / 1440 = 1) := by
    intro h0
    exact h2 (by simp [dayLabel, h0])
  omega

/-- Claim C1, counterexample: at current time 20:00, meal time 12:00 and a
16 hour fast, the candidate start 2160 - 960 = 1200 is not strictly after
the current minute 1200, so the push fires and the fast ends at 3600, one
full day after 2160, the smallest minute congruent to the meal time modulo
1440 and strictly greater than the current time. -/
theorem C1_counterexample :
    parse_time "20:00" none = .ok 1200 ∧ parse_time "12:00" none = .ok 720 ∧
    truncRat ((16:ℚ) * 60) = 960 ∧ specNextOccurrence 1200 720 = 2160 ∧
    fastingStartAbs 1200 720 960 + 960 ≠ specNextOccurrence 1200 720 :=
  ⟨by decide, by decide, trunc16, by decide, by decide⟩

/-- Claim C2, counterexample: at current time 08:00, meal time 12:00 and a
49 hour fast, the computed fasting start is -780, which is not strictly
greater than the current minute 480, refuting the unconditional claim that
the returned start is strictly in the future. -/
theorem C2_counterexample :
    parse_time "08:00" none = .ok 480 ∧ parse_time "12:00" none = .ok 720 ∧
    truncRat ((49:ℚ) * 60) = 2940 ∧
    ¬ ((480 : Int) < fastingStartAbs 480 720 2940) :=
  ⟨by decide, by decide, trunc49, by decide⟩

/-- Claim C1, witness: the amended statement instantiated at current time
08:00, meal time 12:00 and a 2 hour fast, where no push is needed. -/
theorem C1_witness :
    fastingStartAbs 480 720 (truncRat ((2:ℚ) * 60)) + truncRat ((2:ℚ) * 60) =
      specNextOccurrence 480 720 :=
  (C1_next_meal "08:00" "12:00" none none 2 480 720 (by decide) (by decide)
    (by norm_num)).2.1 (by rw [trunc2]; decide)

/-- Claim C2, witness: the amended statement instantiated at current time
08:00, meal time 12:00 and a 2 hour fast. -/
theorem C2_witness :
    ((480 : Nat) : Int) < fastingStartAbs 480 720 (truncRat ((2:ℚ) * 60)) ∧
    pushCount 480 720 (truncRat ((2:ℚ) * 60)) ≤ 1 :=
  C2_future "08:00" "12:00" none none 2 480 720 (by decide) (by decide)
    (by norm_num) (by norm_num)

/-- Claim C8, witness: the congruence instantiated at current time 20:00,
meal time 12:00 and a 16 hour fast. -/
theorem C8_witness :
    (fastingStartAbs 1200 720 (truncRat ((16:ℚ) * 60)) + truncRat ((16:ℚ) * 60)) % 1440 =
      ((720 : Nat) : Int) % 1440 :=
  C8_congruent "20:00" "12:00" none none 16 1200 720 (by decide) (by decide) (by norm_num)

/-- Claim C9, witness: the day bound instantiated at current time 20:00,
meal time 12:00 and a 16 hour fast. -/
theorem C9_witness :
    fastingStartAbs 1200 720 (truncRat ((16:ℚ) * 60)) / 1440 ≤ 1 ∧
    (dayLabel (fastingStartAbs 1200 720 (truncRat ((16:ℚ) * 60))) ≠ "today" →
      dayLabel (fastingStartAbs 1200 720 (truncRat ((16:ℚ) * 60))) ≠ "tomorrow" →
      fastingStartAbs 1200 720 (truncRat ((16:ℚ) * 60)) / 1440 < 0) :=
  C9_day "20:00" "12:00" none none 16 1200 720 (by decide) (by decide) (by norm_num)

theorem isEmpty_false_of_ne (t : String) (ht : t ≠ "") : t.isEmpty = false := by
  rcases h : t.isEmpty
  · rfl
  · exact absurd ((String.isEmpty_iff t).mp h) ht

theorem strUpper_empty_false (t u : String) (hu : strUpper t = u) (hne : u ≠ "") :
    t.isEmpty = false := by
  apply isEmpty_false_of_ne
  intro h0
  subst h0
  have hu0 : u = "" := by rw [← hu]; rfl
  exact hne hu0

/-- Claim C3: calculate_fasting_start applied to 20:00, 12:00 and 16 hours
with 24-hour output returns the pair 20:00 and tomorrow, and applied to
08:00, 12:00 and 2 hours it returns the pair 10:00 and today. -/
theorem C3_examples :
    calculate_fasting_start "20:00" "12:00" 16 none none false = .ok ("20:00", "tomorrow") ∧
    calculate_fasting_start "08:00" "12:00" 2 none none false = .ok ("10:00", "today") := by
  constructor
  · simp only [calculate_fasting_start, trunc16]
    decide
  · simp only [calculate_fasting_start, trunc2]
    decide

/-- Claim C5: for every valid 12-hour input (hour one through twelve,
minutes through 59, period upper-casing to AM or PM), parse_time returns
hour times 60 plus minutes where PM adds 12 to the hour unless the hour is
already 12 and AM maps hour 12 to 0; 12:00 AM gives 0 and 12:00 PM gives
720; and every non-error result of parse_time lies within 0 through 1439. -/
theorem C5_parse12 :
    (∀ (s t : String) (hh mm : Nat), parseHHMM s.data = some (hh, mm) →
      1 ≤ hh → hh ≤ 12 → mm ≤ 59 →
      (strUpper t = "AM" →
        parse_time s (some t) = .ok ((if hh = 12 then 0 else hh) * 60 + mm)) ∧
      (strUpper t = "PM" →
        parse_time s (some t) = .ok ((if hh = 12 then hh else hh + 12) * 60 + mm)))
  ∧ parse_time "12:00" (some "AM") = .ok 0
  ∧ parse_time "12:00" (some "PM") = .ok 720
  ∧ (∀ (s : String) (p : Option String) (v : Nat), parse_time s p = .ok v → v ≤ 1439) := by
  refine ⟨?_, by decide, by decide, parse_time_ok_le⟩
  intro s t hh mm hparse h1 h12 hmm
  have hPMne : ¬ (("AM" : String) = "PM") := by decide
  have hAMne : ¬ (("PM" : String) = "AM") := by decide
  constructor
  · intro hAM
    have hte : t.isEmpty = false := strUpper_empty_false t "AM" hAM (by decide)
    rw [parse_time, hparse]
    simp only [parseTimeCore, hte, Bool.false_eq_true, if_false, hAM]
    rw [if_neg (by omega), if_neg (by decide), if_neg (by omega)]
    by_cases hq12 : hh = 12
    · simp [hq12]
    · simp [hq12, hPMne]
  · intro hPM
    have hte : t.isEmpty = false := strUpper_empty_false t "PM" hPM (by decide)
    rw [parse_time, hparse]
    simp only [parseTimeCore, hte, Bool.false_eq_true, if_false, hPM]
    rw [if_neg (by omega), if_neg (by decide), if_neg (by omega)]
    by_cases hq12 : hh = 12
    · simp [hq12, hAMne]
    · simp [hq12]

/-- Claim C5, witness: the 12-hour conversion instantiated at 01:30 with
period pm, which parses to 810 minutes. -/
theorem C5_witness :
    parse_time "01:30" (some "pm") = .ok ((if 1 = 12 then 1 else 1 + 12) * 60 + 30) :=
  (C5_parse12.1 "01:30" "pm" 1 30 (by decide) (by decide) (by decide) (by decide)).2 (by decide)

/-- Claim C6: for every integer minute count m, parsing the 24-hour
rendering of m returns m modulo 1440; and every value v returned by
parse_time round-trips through format_time in 24-hour mode and, feeding the
displayed AM or PM token back as the period, in 12-hour mode. -/
theorem C6_roundtrip :
    (∀ m : Int, parse_time (format_time m false) none = .ok (m % 1440).toNat)
  ∧ (∀ (s : String) (p : Option String) (v : Nat), parse_time s p = .ok v →
      parse_time (format_time (v : Int) false) none = .ok v ∧
      ∃ hh pp, format_time (v : Int) true = hh ++ " " ++ pp ∧
        (pp = "AM" ∨ pp = "PM") ∧ parse_time hh (some pp) = .ok v) := by
  refine ⟨parse_format24_int, fun s p v h => ?_⟩
  have hv := parse_time_ok_le _ _ _ h
  exact ⟨parse_format24 v (by omega), parse_format12 v (by omega)⟩

/-- Claim C6, witness: the round trip instantiated at the string 13:30,
which parses to 810 minutes. -/
theorem C6_witness :
    parse_time (format_time ((810 : Nat) : Int) false) none = .ok 810 ∧
    ∃ hh pp, format_time ((810 : Nat) : Int) true = hh ++ " " ++ pp ∧
      (pp = "AM" ∨ pp = "PM") ∧ parse_time hh (some pp) = .ok 810 :=
  C6_roundtrip.2 "13:30" none 810 (by decide)

/-- Claim C7: format_time depends on its argument only through reduction
modulo 1440; 810 renders as 13:30 in 24-hour mode and 01:30 PM in 12-hour
mode; the 24-hour output is the zero-padded hour and minute of the
normalized value; the 12-hour output is a zero-padded display hour between
1 and 12 followed by the minutes and an AM or PM token; and a normalized
hour of 0 is displayed as 12 with token AM. -/
theorem C7_format :
    (∀ (m : Int) (u : Bool), format_time m u = format_time (m % 1440) u)
  ∧ format_time 810 false = "13:30"
  ∧ format_time 810 true = "01:30 PM"
  ∧ (∀ m : Int, ∃ hh mm : Nat, hh ≤ 23 ∧ mm ≤ 59 ∧ m % 1440 = 60 * hh + mm ∧
      format_time m false = pad2 hh ++ ":" ++ pad2 mm)
  ∧ (∀ m : Int, ∃ dh mm : Nat, ∃ pp : String, 1 ≤ dh ∧ dh ≤ 12 ∧ mm ≤ 59 ∧
      (pp = "AM" ∨ pp = "PM") ∧
      format_time m true = pad2 dh ++ ":" ++ pad2 mm ++ " " ++ pp)
  ∧ (∀ m : Int, m % 1440 < 60 → ∃ mm : Nat, mm ≤ 59 ∧
      format_time m true = pad2 12 ++ ":" ++ pad2 mm ++ " " ++ "AM") := by
  refine ⟨format_time_wrap, by decide, by decide, ?_, ?_, ?_⟩
  · intro m
    exact ⟨(m % 1440).toNat / 60, (m % 1440).toNat % 60, by omega, by omega, by omega,
      format_time_24_eq m⟩
  · intro m
    refine ⟨(if (m % 1440).toNat / 60 % 12 = 0 then 12 else (m % 1440).toNat / 60 % 12),
      (m % 1440).toNat % 60,
      (if (m % 1440).toNat / 60 < 12 then "AM" else "PM"), ?_, ?_, by omega, ?_, ?_⟩
    · split <;> omega
    · split <;> omega
    · split <;> simp
    · rw [format_time_12_eq]
  · intro m hm
    have h0 : (m % 1440).toNat / 60 = 0 := by omega
    refine ⟨(m % 1440).toNat % 60, by omega, ?_⟩
    rw [format_time_12_eq, h0]
    norm_num

/-- Claim C7, witness: the hour-0-displays-as-12 conjunct instantiated at
1470 minutes, which normalizes to 00:30. -/
theorem C7_witness : ∃ mm : Nat, mm ≤ 59 ∧
    format_time 1470 true = pad2 12 ++ ":" ++ pad2 mm ++ " " ++ "AM" :=
  C7_format.2.2.2.2.2 1470 (by decide)

theorem daysInMonth_bounds (y month : Nat) :
    1 ≤ daysInMonth y month ∧ daysInMonth y month ≤ 31 := by
  unfold daysInMonth
  split_ifs <;> omega

theorem mkDate_bounds (y month d y0 m0 d0 : Nat) (h : mkDate y month d = some (y0, m0, d0)) :
    1 ≤ y0 ∧ y0 ≤ 9999 ∧ 1 ≤ m0 ∧ m0 ≤ 12 ∧ 1 ≤ d0 ∧ d0 ≤ daysInMonth y0 m0 := by
  unfold mkDate at h
  split_ifs at h with hcond
  · simp only [Option.some.injEq, Prod.mk.injEq] at h
    obtain ⟨h1, h2, h3⟩ := h
    subst h1
    subst h2
    subst h3
    exact hcond

theorem parseDate_bounds (s : String) (y0 m0 d0 : Nat)
    (h : parseDate s = some (y0, m0, d0)) :
    1 ≤ y0 ∧ y0 ≤ 9999 ∧ 1 ≤ m0 ∧ m0 ≤ 12 ∧ 1 ≤ d0 ∧ d0 ≤ daysInMonth y0 m0 := by
  unfold parseDate at h
  split at h <;> try split_ifs at h
  all_goals first
  | exact mkDate_bounds _ _ _ _ _ _ h
  | simp at h

theorem yearChars_of_ge_1000 (y : Nat) (h1 : 1000 ≤ y) (h2 : y ≤ 9999) :
    yearChars y = [digitChar (y / 1000), digitChar (y / 100 % 10), digitChar (y / 10 % 10),
      digitChar (y % 10)] := by
  unfold yearChars
  rw [if_neg (by omega), if_neg (by omega), if_neg (by omega)]

theorem formatDate_data (y month d : Nat) (h1 : 1000 ≤ y) (h2 : y ≤ 9999) :
    (formatDate y month d).data =
    [digitChar (y / 1000), digitChar (y / 100 % 10), digitChar (y / 10 % 10), digitChar (y % 10),
     '-', digitChar (month / 10), digitChar (month % 10), '-',
     digitChar (d / 10), digitChar (d % 10)] := by
  simp only [formatDate, data_append, yearChars_of_ge_1000 y h1 h2]
  rfl

theorem parseDate_formatDate (y month d : Nat) (hy1 : 1000 ≤ y) (hy : y ≤ 9999)
    (hm1 : 1 ≤ month) (hm : month ≤ 12) (hd1 : 1 ≤ d) (hd : d ≤ daysInMonth y month) :
    parseDate (formatDate y month d) = some (y, month, d) := by
  have hd31 : d ≤ 31 := hd.trans (daysInMonth_bounds y month).2
  have l1 := digit_facts (y / 1000) (by omega)
  have l2 := digit_facts (y / 100 % 10) (by omega)
  have l3 := digit_facts (y / 10 % 10) (by omega)
  have l4 := digit_facts (y % 10) (by omega)
  have l5 := digit_facts (month / 10) (by omega)
  have l6 := digit_facts (month % 10) (by omega)
  have l7 := digit_facts (d / 10) (by omega)
  have l8 := digit_facts (d % 10) (by omega)
  unfold parseDate
  rw [formatDate_data y month d hy1 hy]
  simp only [l1.1, l2.1, l3.1, l4.1, l5.1, l6.1, l7.1, l8.1, and_self, true_and, and_true,
    if_pos, l1.2.1, l2.2.1, l3.2.1, l4.2.1, l5.2.1, l6.2.1, l7.2.1, l8.2.1]
  have hY : 1000 * (y / 1000) + 100 * (y / 100 % 10) + 10 * (y / 10 % 10) + y % 10 = y := by
    omega
  have hM : 10 * (month / 10) + month % 10 = month := by omega
  have hD : 10 * (d / 10) + d % 10 = d := by omega
  rw [hY, hM, hD]
  unfold mkDate
  rw [if_pos ⟨by omega, hy, hm1, hm, hd1, hd⟩]

/-- Claim C10, counterexample: the claim quantifies over every integer year
offset, but the offset 8000 applied to the valid date 2020-01-01 drives the
target year to 10020, outside the supported datetime range, where the code
raises instead of returning a shifted formatted date; moreover, within the
supported range, the offset -1520 applied to 2020-01-01 yields the year
500, which the platform strftime renders unpadded as 500-01-01 rather than
as a four-digit year field. -/
theorem C10_counterexample :
    parseDate "2020-01-01" = some (2020, 1, 1) ∧
    calculate_new_date 8000 "2020-01-01" = .error .range ∧
    calculate_new_date (-1520) "2020-01-01" = .ok "500-01-01" := by
  refine ⟨by decide, by decide, by decide⟩

/-- Claim C10, amended: calculate_new_date fails with a FormatError exactly
on unparseable date strings; on a parseable date whose target year leaves
the supported range 1 through 9999 it fails with a range error; when the
target year stays in the range it returns the date with the year shifted by
the offset and the day clamped to the length of the target month, the year
rendered unpadded per the platform strftime convention; and for target
years of at least 1000 the output is a four-digit year-month-day string
that parses back to exactly the shifted, clamped date. -/
theorem C10_date_shift :
    (∀ (s : String) (y : Int), parseDate s = none → calculate_new_date y s = .error .format)
  ∧ (∀ (s : String) (y : Int) (y0 month d0 : Nat),
      parseDate s = some (y0, month, d0) →
      ¬ (1 ≤ (y0 : Int) + y ∧ (y0 : Int) + y ≤ 9999) →
      calculate_new_date y s = .error .range)
  ∧ (∀ (s : String) (y : Int) (y0 month d0 : Nat),
      parseDate s = some (y0, month, d0) → 1 ≤ (y0 : Int) + y → (y0 : Int) + y ≤ 9999 →
      calculate_new_date y s =
        .ok (formatDate ((y0 : Int) + y).toNat month
          (min d0 (daysInMonth ((y0 : Int) + y).toNat month))))
  ∧ (∀ (s : String) (y : Int) (y0 month d0 : Nat),
      parseDate s = some (y0, month, d0) → 1000 ≤ (y0 : Int) + y → (y0 : Int) + y ≤ 9999 →
      parseDate (formatDate ((y0 : Int) + y).toNat month
          (min d0 (daysInMonth ((y0 : Int) + y).toNat month))) =
        some (((y0 : Int) + y).toNat, month,
          min d0 (daysInMonth ((y0 : Int) + y).toNat month))) := by
  refine ⟨?_, ?_, ?_, ?_⟩
  · intro s y h
    unfold calculate_new_date
    rw [h]
  · intro s y y0 month d0 h hnot
    unfold calculate_new_date
    rw [h]
    simp only
    rw [if_neg hnot]
  · intro s y y0 month d0 h h1 h2
    unfold calculate_new_date
    rw [h]
    simp only
    rw [if_pos ⟨h1, h2⟩]
  · intro s y y0 month d0 h h1 h2
    obtain ⟨hy1, hy2, hm1, hm2, hd1, hd2⟩ := parseDate_bounds s y0 month d0 h
    apply parseDate_formatDate
    · omega
    · omega
    · exact hm1
    · exact hm2
    · have := (daysInMonth_bounds (((y0 : Int) + y).toNat) month).1
      omega
    · exact min_le_right _ _

/-- Claim C10, witness: shifting the leap day 2020-02-29 by one year clamps
to 2021-02-28. -/
theorem C10_witness : calculate_new_date 1 "2020-02-29" = .ok "2021-02-28" := by
  have h := C10_date_shift.2.2.1 "2020-02-29" 1 2020 2 29 (by decide) (by decide) (by decide)
  exact h.trans (by decide)
